import Mathlib

/-!
Verification of the constituent data model of `nlg/structures.py`:
the microplanning element hierarchy (String, Word, PlaceHolder, the Phrase
kinds, Clause, NP, CC), its traversal and replacement engine, the feature
store, the string renderer, the JSON coder, and the macro-structure
containers (Document, Section, Paragraph, Message).

Each definition is a shallow embedding of the corresponding Python class or
method; the Python behaviour that raises an exception is modelled by the
`PyResult` error case carrying the exception name.
-/

namespace Nlg

/-- Kind tag for the four generic Phrase subclasses that add no new slots.
They differ in the `type` string and the visitor dispatch name:
`VP` has `type = VERB_PHRASE` and `_visitor_name = visit_vp`; `PP`, `AdvP`
and `AdjP` have `visit_pp` as dispatch name and their own `type` strings. -/
inductive PKind where
  | vp
  | pp
  | advp
  | adjp
deriving DecidableEq

/-- Feature map of an element (`self._features`): a string-keyed dictionary
with string values, kept as an association list in insertion order. -/
abbrev Feats := List (String × String)

/-- Closed syntax of the concrete Element kinds of `nlg/structures.py`.

Every constructor carries the `Element` base fields `id` and `_features`
(the `_visitor_name` field is determined by the constructor and is made
explicit again by the JSON coder).  Per kind:

* `str`  — class `String`: field `val`.
* `word` — class `Word`: fields `word` (may be Python `None`) and `pos`.
* `ph`   — class `PlaceHolder`: `id` is overwritten by the placeholder key
  (`pid` here) and `value` holds the bound element or `None`.
* `phr`  — the four generic `Phrase` subclasses (`VP`/`PP`/`AdvP`/`AdjP`)
  with the `Phrase` slots `discourse_fn`, `front_modifier`, `pre_modifier`,
  `head`, `complement`, `post_modifier`.
* `clause` — class `Clause`: the `Phrase` slots plus `subj` and `vp`
  (called `vb` here to avoid clashing with the `PKind` constructor).
* `np`   — class `NP`: the `Phrase` slots plus `spec`.
* `cc`   — class `CC`: the list `coords`. -/
inductive Elem where
  | str (id : Int) (feats : Feats) (val : String)
  | word (id : Int) (feats : Feats) (w : Option String) (pos : Option String)
  | ph (pid : String) (feats : Feats) (value : Option Elem)
  | phr (k : PKind) (id : Int) (feats : Feats) (dfn : Option String)
        (fm pm : List Elem) (hd : Option Elem) (cp ps : List Elem)
  | clause (id : Int) (feats : Feats) (dfn : Option String)
           (subj vb : Option Elem)
           (fm pm : List Elem) (hd : Option Elem) (cp ps : List Elem)
  | np (id : Int) (feats : Feats) (dfn : Option String) (spec : Option Elem)
       (fm pm : List Elem) (hd : Option Elem) (cp ps : List Elem)
  | cc (id : Int) (feats : Feats) (coords : List Elem)

mutual

/-- Python structural equality `__eq__` of the element classes: equality
holds only between the same concrete kind (the `isinstance` checks together
with the `type`/`_visitor_name` comparisons) and compares `id`, the feature
map and every kind-specific field. -/
def beqE : Elem → Elem → Bool
  | .str i f v, .str i' f' v' => i == i' && f == f' && v == v'
  | .word i f w p, .word i' f' w' p' => i == i' && f == f' && w == w' && p == p'
  | .ph pid f v, .ph pid' f' v' => pid == pid' && f == f' && beqO v v'
  | .phr k i f d fm pm hd cp ps, .phr k' i' f' d' fm' pm' hd' cp' ps' =>
      k == k' && i == i' && f == f' && d == d' && beqL fm fm' && beqL pm pm' &&
      beqO hd hd' && beqL cp cp' && beqL ps ps'
  | .clause i f d s v fm pm hd cp ps, .clause i' f' d' s' v' fm' pm' hd' cp' ps' =>
      i == i' && f == f' && d == d' && beqO s s' && beqO v v' && beqL fm fm' &&
      beqL pm pm' && beqO hd hd' && beqL cp cp' && beqL ps ps'
  | .np i f d sp fm pm hd cp ps, .np i' f' d' sp' fm' pm' hd' cp' ps' =>
      i == i' && f == f' && d == d' && beqO sp sp' && beqL fm fm' &&
      beqL pm pm' && beqO hd hd' && beqL cp cp' && beqL ps ps'
  | .cc i f cs, .cc i' f' cs' => i == i' && f == f' && beqL cs cs'
  | _, _ => false

/-- Equality lifted to an optional slot (a Python attribute that may be
`None`); `None == element` and `element == None` are `False` in Python. -/
def beqO : Option Elem → Option Elem → Bool
  | none, none => true
  | some a, some b => beqE a b
  | _, _ => false

/-- Equality of two Python lists of elements (pairwise `__eq__`). -/
def beqL : List Elem → List Elem → Bool
  | [], [] => true
  | a :: as_, b :: bs => beqE a b && beqL as_ bs
  | _, _ => false

end

mutual

theorem beqE_refl : ∀ e : Elem, beqE e e = true
  | .str i f v => by simp [beqE]
  | .word i f w p => by simp [beqE]
  | .ph pid f v => by simp [beqE, beqO_refl v]
  | .phr k i f d fm pm hd cp ps => by
      simp [beqE, beqL_refl fm, beqL_refl pm, beqO_refl hd, beqL_refl cp, beqL_refl ps]
  | .clause i f d s v fm pm hd cp ps => by
      simp [beqE, beqO_refl s, beqO_refl v, beqL_refl fm, beqL_refl pm, beqO_refl hd,
        beqL_refl cp, beqL_refl ps]
  | .np i f d sp fm pm hd cp ps => by
      simp [beqE, beqO_refl sp, beqL_refl fm, beqL_refl pm, beqO_refl hd,
        beqL_refl cp, beqL_refl ps]
  | .cc i f cs => by simp [beqE, beqL_refl cs]

theorem beqO_refl : ∀ o : Option Elem, beqO o o = true
  | none => rfl
  | some e => by simp [beqO, beqE_refl e]

theorem beqL_refl : ∀ l : List Elem, beqL l l = true
  | [] => rfl
  | e :: es => by simp [beqL, beqE_refl e, beqL_refl es]

end

mutual

/-- The `constituents` generators, collected into lists.  Per kind
(`Phrase.constituents`, `Clause.constituents`, `NP.constituents`,
`CC.constituents`, and the leaf classes returning `[self]`):

* leaves yield themselves;
* a generic Phrase yields front-modifiers, pre-modifiers, head subtree,
  complements, post-modifiers;
* a Clause yields front-modifiers, subject subtree, pre-modifiers,
  verb-phrase subtree, complements, post-modifiers (its `head` slot is not
  traversed — `Clause.constituents` never calls `yield_head`);
* an NP yields the specifier subtree first, then the generic Phrase order;
* a CC yields the constituents of each coordinate in order. -/
def constituents : Elem → List Elem
  | .str i f v => [.str i f v]
  | .word i f w p => [.word i f w p]
  | .ph pid f v => [.ph pid f v]
  | .phr _ _ _ _ fm pm hd cp ps =>
      constituentsL fm ++ constituentsL pm ++ constituentsO hd ++
      constituentsL cp ++ constituentsL ps
  | .clause _ _ _ subj vb fm pm _ cp ps =>
      constituentsL fm ++ constituentsO subj ++ constituentsL pm ++
      constituentsO vb ++ constituentsL cp ++ constituentsL ps
  | .np _ _ _ spec fm pm hd cp ps =>
      constituentsO spec ++ constituentsL fm ++ constituentsL pm ++
      constituentsO hd ++ constituentsL cp ++ constituentsL ps
  | .cc _ _ coords => constituentsL coords

/-- Constituents of an optional slot (`if slot is not None: yield from ...`). -/
def constituentsO : Option Elem → List Elem
  | none => []
  | some e => constituents e

/-- Constituents of each element of a list, concatenated in order. -/
def constituentsL : List Elem → List Elem
  | [] => []
  | e :: es => constituents e ++ constituentsL es

end

/-- Leaf test: the three leaf classes `String`, `Word`, `PlaceHolder`. -/
def isLeaf : Elem → Bool
  | .str _ _ _ => true
  | .word _ _ _ _ => true
  | .ph _ _ _ => true
  | _ => false

mutual

/-- Number of leaf nodes sitting in the child slots that the `constituents`
generators traverse (so a Clause head, which `Clause.constituents` skips,
is not counted). -/
def numLeaves : Elem → Nat
  | .str _ _ _ => 1
  | .word _ _ _ _ => 1
  | .ph _ _ _ => 1
  | .phr _ _ _ _ fm pm hd cp ps =>
      numLeavesL fm + numLeavesL pm + numLeavesO hd + numLeavesL cp + numLeavesL ps
  | .clause _ _ _ subj vb fm pm _ cp ps =>
      numLeavesL fm + numLeavesO subj + numLeavesL pm + numLeavesO vb +
      numLeavesL cp + numLeavesL ps
  | .np _ _ _ spec fm pm hd cp ps =>
      numLeavesO spec + numLeavesL fm + numLeavesL pm + numLeavesO hd +
      numLeavesL cp + numLeavesL ps
  | .cc _ _ coords => numLeavesL coords

def numLeavesO : Option Elem → Nat
  | none => 0
  | some e => numLeaves e

def numLeavesL : List Elem → Nat
  | [] => 0
  | e :: es => numLeaves e + numLeavesL es

end

mutual

theorem constituents_all_leaf : ∀ e : Elem, (constituents e).all isLeaf = true
  | .str i f v => by simp [constituents, isLeaf]
  | .word i f w p => by simp [constituents, isLeaf]
  | .ph pid f v => by simp [constituents, isLeaf]
  | .phr k i f d fm pm hd cp ps => by
      simp [constituents, List.all_append, constituentsL_all_leaf fm,
        constituentsL_all_leaf pm, constituentsO_all_leaf hd,
        constituentsL_all_leaf cp, constituentsL_all_leaf ps]
  | .clause i f d s v fm pm hd cp ps => by
      simp [constituents, List.all_append, constituentsL_all_leaf fm,
        constituentsO_all_leaf s, constituentsL_all_leaf pm,
        constituentsO_all_leaf v, constituentsL_all_leaf cp,
        constituentsL_all_leaf ps]
  | .np i f d sp fm pm hd cp ps => by
      simp [constituents, List.all_append, constituentsO_all_leaf sp,
        constituentsL_all_leaf fm, constituentsL_all_leaf pm,
        constituentsO_all_leaf hd, constituentsL_all_leaf cp,
        constituentsL_all_leaf ps]
  | .cc i f cs => by simp [constituents, constituentsL_all_leaf cs]

theorem constituentsO_all_leaf : ∀ o : Option Elem, (constituentsO o).all isLeaf = true
  | none => rfl
  | some e => by simp [constituentsO, constituents_all_leaf e]

theorem constituentsL_all_leaf : ∀ l : List Elem, (constituentsL l).all isLeaf = true
  | [] => rfl
  | e :: es => by
      simp [constituentsL, List.all_append, constituents_all_leaf e,
        constituentsL_all_leaf es]

end

mutual

theorem constituents_length : ∀ e : Elem, (constituents e).length = numLeaves e
  | .str i f v => rfl
  | .word i f w p => rfl
  | .ph pid f v => rfl
  | .phr k i f d fm pm hd cp ps => by
      simp [constituents, numLeaves, List.length_append, constituentsL_length fm,
        constituentsL_length pm, constituentsO_length hd, constituentsL_length cp,
        constituentsL_length ps]
      omega
  | .clause i f d s v fm pm hd cp ps => by
      simp [constituents, numLeaves, List.length_append, constituentsL_length fm,
        constituentsO_length s, constituentsL_length pm, constituentsO_length v,
        constituentsL_length cp, constituentsL_length ps]
      omega
  | .np i f d sp fm pm hd cp ps => by
      simp [constituents, numLeaves, List.length_append, constituentsO_length sp,
        constituentsL_length fm, constituentsL_length pm, constituentsO_length hd,
        constituentsL_length cp, constituentsL_length ps]
      omega
  | .cc i f cs => by simp [constituents, numLeaves, constituentsL_length cs]

theorem constituentsO_length : ∀ o : Option Elem, (constituentsO o).length = numLeavesO o
  | none => rfl
  | some e => by simp [constituentsO, numLeavesO, constituents_length e]

theorem constituentsL_length : ∀ l : List Elem, (constituentsL l).length = numLeavesL l
  | [] => rfl
  | e :: es => by
      simp [constituentsL, numLeavesL, List.length_append, constituents_length e,
        constituentsL_length es]

end

/-- Class `Message`: an RST relation, an optional nucleus and satellites
(the `None`-valued satellites are dropped by the constructor). -/
structure Msg where
  rst : Nat
  nucleus : Option Elem
  satellites : List Elem

/-- Class `Paragraph`: a list of messages. -/
structure Par where
  messages : List Msg

/-- Class `Section`: a title element and a list of paragraphs. -/
structure Sec where
  title : Elem
  paragraphs : List Par

/-- Class `Document`: a title element and a list of sections. -/
structure Doc where
  title : Elem
  sections : List Sec

/-- `Message.constituents`: the constituents of the nucleus (when present)
followed by the constituents of each satellite. -/
def msgConstituents (m : Msg) : List Elem :=
  constituentsO m.nucleus ++ constituentsL m.satellites

/-- `Paragraph.constituents`: the constituents of each message in order. -/
def parConstituents : List Msg → List Elem
  | [] => []
  | m :: ms => msgConstituents m ++ parConstituents ms

/-- Constituents of a list of paragraphs, concatenated. -/
def parListConstituents : List Par → List Elem
  | [] => []
  | p :: ps => parConstituents p.messages ++ parListConstituents ps

/-- `Section.constituents`: `yield self.title` — the title element itself,
not its constituents — then the constituents of each paragraph. -/
def secConstituents (s : Sec) : List Elem :=
  s.title :: parListConstituents s.paragraphs

/-- Constituents of a list of sections, concatenated. -/
def secListConstituents : List Sec → List Elem
  | [] => []
  | s :: ss => secConstituents s ++ secListConstituents ss

/-- `Document.constituents`: `yield self.title` — the title element itself,
not its constituents — then the constituents of each section. -/
def docConstituents (d : Doc) : List Elem :=
  d.title :: secListConstituents d.sections

/-- Leaves reachable through a `Message` (per its traversal). -/
def msgNumLeaves (m : Msg) : Nat :=
  numLeavesO m.nucleus + numLeavesL m.satellites

/-- Leaves reachable through a `Paragraph` (per its traversal). -/
def parNumLeaves : List Msg → Nat
  | [] => 0
  | m :: ms => msgNumLeaves m + parNumLeaves ms

theorem msgConstituents_all_leaf (m : Msg) : (msgConstituents m).all isLeaf = true := by
  simp [msgConstituents, List.all_append, constituentsO_all_leaf m.nucleus,
    constituentsL_all_leaf m.satellites]

theorem msgConstituents_length (m : Msg) : (msgConstituents m).length = msgNumLeaves m := by
  simp [msgConstituents, msgNumLeaves, List.length_append,
    constituentsO_length m.nucleus, constituentsL_length m.satellites]

theorem parConstituents_all_leaf : ∀ ms : List Msg, (parConstituents ms).all isLeaf = true
  | [] => rfl
  | m :: ms => by
      simp [parConstituents, List.all_append, msgConstituents_all_leaf m,
        parConstituents_all_leaf ms]

theorem parConstituents_length : ∀ ms : List Msg, (parConstituents ms).length = parNumLeaves ms
  | [] => rfl
  | m :: ms => by
      simp [parConstituents, parNumLeaves, List.length_append,
        msgConstituents_length m, parConstituents_all_leaf ms, parConstituents_length ms]

/-- Result of a Python call: either a value or a raised exception,
identified by the exception class name. -/
abbrev PyResult (α : Type) := Except String α

/-- Outcome of scanning one of the ordered child lists in
`Phrase.replace`: either `list[i] == one` held directly at index `i`,
or the recursive `o.replace(one, another)` on the child at index `i`
succeeded and left the updated child `e`. -/
inductive ScanHit where
  | direct (i : Nat)
  | viaChild (i : Nat) (e : Elem)

/-- Effect of a scan hit on the list being scanned, as coded in the
`front_modifier`, `pre_modifier` and `complement` loops of
`Phrase.replace`: a direct match stores `another` at the index — except
that with `another is None` the code executes `del sent.<list>[i]` and
the name `sent` is not defined anywhere in scope, so a `NameError` is
raised instead of deleting. -/
def applyHit (lst : List Elem) (another : Option Elem) : ScanHit → PyResult (List Elem)
  | .direct i =>
      match another with
      | none => .error "NameError"
      | some y => .ok (lst.set i y)
  | .viaChild i e => .ok (lst.set i e)

/-- Effect of a scan hit found in the `post_modifier` loop of
`Phrase.replace`.  The direct-match branch of that loop reads
`del sent.front_modifier[i]` / `self.front_modifier[i] = another`: the
replacement is written into the front-modifier list (an `IndexError` when
`i` is out of that list's range), while the post-modifier list keeps the
matched element.  The recursion branch updates the post-modifier child in
place as usual. -/
def applyPostHit (fm ps : List Elem) (another : Option Elem) :
    ScanHit → PyResult (List Elem × List Elem)
  | .direct i =>
      match another with
      | none => .error "NameError"
      | some y => if i < fm.length then .ok (fm.set i y, ps) else .error "IndexError"
  | .viaChild i e => .ok (fm, ps.set i e)

/-- Scan of `CC.replace`: only a top-level equality scan over `coords`
(no recursion into the coordinates); returns the first matching index. -/
def ccScan (one : Elem) : List Elem → Nat → Option Nat
  | [], _ => none
  | o :: rest, j => if beqE o one then some j else ccScan one rest (j + 1)

mutual

/-- The `replace(one, another)` methods: first-occurrence replacement,
returning the Python boolean result together with the (possibly updated)
tree, or a raised exception.

* leaves (`Element.replace`) return `False` unchanged;
* a generic Phrase (`Phrase.replace`) scans front-modifiers, then
  pre-modifiers, then the head (direct equality then recursion), then
  complements, then post-modifiers — with the defects modelled by
  `applyHit` and `applyPostHit`;
* a Clause (`Clause.replace`) first tries `subj` (direct equality, then
  recursion), then `vp`, then falls through to the inherited
  `Phrase.replace`;
* an NP (`NP.replace`) first tries `spec`, then the inherited
  `Phrase.replace`;
* a CC (`CC.replace`) scans only the top level of `coords`; a direct match
  stores `another`, or with `another is None` deletes the coordinate
  (`del self.coords[i]`, which is well defined here). -/
def replaceE (one : Elem) (another : Option Elem) : Elem → PyResult (Bool × Elem)
  | .str i f v => .ok (false, .str i f v)
  | .word i f w p => .ok (false, .word i f w p)
  | .ph pid f v => .ok (false, .ph pid f v)
  | .phr k i f d fm pm hd cp ps =>
      match scanList one another fm 0 with
      | .error msg => .error msg
      | .ok (some hit) =>
          match applyHit fm another hit with
          | .error msg => .error msg
          | .ok fm' => .ok (true, .phr k i f d fm' pm hd cp ps)
      | .ok none =>
      match scanList one another pm 0 with
      | .error msg => .error msg
      | .ok (some hit) =>
          match applyHit pm another hit with
          | .error msg => .error msg
          | .ok pm' => .ok (true, .phr k i f d fm pm' hd cp ps)
      | .ok none =>
      if beqO hd (some one) then .ok (true, .phr k i f d fm pm another cp ps)
      else
      match replaceInto one another hd with
      | .error msg => .error msg
      | .ok (some h') => .ok (true, .phr k i f d fm pm (some h') cp ps)
      | .ok none =>
      match scanList one another cp 0 with
      | .error msg => .error msg
      | .ok (some hit) =>
          match applyHit cp another hit with
          | .error msg => .error msg
          | .ok cp' => .ok (true, .phr k i f d fm pm hd cp' ps)
      | .ok none =>
      match scanList one another ps 0 with
      | .error msg => .error msg
      | .ok (some hit) =>
          match applyPostHit fm ps another hit with
          | .error msg => .error msg
          | .ok (fm', ps') => .ok (true, .phr k i f d fm' pm hd cp ps')
      | .ok none => .ok (false, .phr k i f d fm pm hd cp ps)
  | .clause i f d subj vb fm pm hd cp ps =>
      if beqO subj (some one) then .ok (true, .clause i f d another vb fm pm hd cp ps)
      else
      match replaceInto one another subj with
      | .error msg => .error msg
      | .ok (some s') => .ok (true, .clause i f d (some s') vb fm pm hd cp ps)
      | .ok none =>
      if beqO vb (some one) then .ok (true, .clause i f d subj another fm pm hd cp ps)
      else
      match replaceInto one another vb with
      | .error msg => .error msg
      | .ok (some v') => .ok (true, .clause i f d subj (some v') fm pm hd cp ps)
      | .ok none =>
      match scanList one another fm 0 with
      | .error msg => .error msg
      | .ok (some hit) =>
          match applyHit fm another hit with
          | .error msg => .error msg
          | .ok fm' => .ok (true, .clause i f d subj vb fm' pm hd cp ps)
      | .ok none =>
      match scanList one another pm 0 with
      | .error msg => .error msg
      | .ok (some hit) =>
          match applyHit pm another hit with
          | .error msg => .error msg
          | .ok pm' => .ok (true, .clause i f d subj vb fm pm' hd cp ps)
      | .ok none =>
      if beqO hd (some one) then .ok (true, .clause i f d subj vb fm pm another cp ps)
      else
      match replaceInto one another hd with
      | .error msg => .error msg
      | .ok (some h') => .ok (true, .clause i f d subj vb fm pm (some h') cp ps)
      | .ok none =>
      match scanList one another cp 0 with
      | .error msg => .error msg
      | .ok (some hit) =>
          match applyHit cp another hit with
          | .error msg => .error msg
          | .ok cp' => .ok (true, .clause i f d subj vb fm pm hd cp' ps)
      | .ok none =>
      match scanList one another ps 0 with
      | .error msg => .error msg
      | .ok (some hit) =>
          match applyPostHit fm ps another hit with
          | .error msg => .error msg
          | .ok (fm', ps') => .ok (true, .clause i f d subj vb fm' pm hd cp ps')
      | .ok none => .ok (false, .clause i f d subj vb fm pm hd cp ps)
  | .np i f d spec fm pm hd cp ps =>
      if beqO spec (some one) then .ok (true, .np i f d another fm pm hd cp ps)
      else
      match replaceInto one another spec with
      | .error msg => .error msg
      | .ok (some sp') => .ok (true, .np i f d (some sp') fm pm hd cp ps)
      | .ok none =>
      match scanList one another fm 0 with
      | .error msg => .error msg
      | .ok (some hit) =>
          match applyHit fm another hit with
          | .error msg => .error msg
          | .ok fm' => .ok (true, .np i f d spec fm' pm hd cp ps)
      | .ok none =>
      match scanList one another pm 0 with
      | .error msg => .error msg
      | .ok (some hit) =>
          match applyHit pm another hit with
          | .error msg => .error msg
          | .ok pm' => .ok (true, .np i f d spec fm pm' hd cp ps)
      | .ok none =>
      if beqO hd (some one) then .ok (true, .np i f d spec fm pm another cp ps)
      else
      match replaceInto one another hd with
      | .error msg => .error msg
      | .ok (some h') => .ok (true, .np i f d spec fm pm (some h') cp ps)
      | .ok none =>
      match scanList one another cp 0 with
      | .error msg => .error msg
      | .ok (some hit) =>
          match applyHit cp another hit with
          | .error msg => .error msg
          | .ok cp' => .ok (true, .np i f d spec fm pm hd cp' ps)
      | .ok none =>
      match scanList one another ps 0 with
      | .error msg => .error msg
      | .ok (some hit) =>
          match applyPostHit fm ps another hit with
          | .error msg => .error msg
          | .ok (fm', ps') => .ok (true, .np i f d spec fm' pm hd cp ps')
      | .ok none => .ok (false, .np i f d spec fm pm hd cp ps)
  | .cc i f coords =>
      match ccScan one coords 0 with
      | some j =>
          match another with
          | some y => .ok (true, .cc i f (coords.set j y))
          | none => .ok (true, .cc i f (coords.eraseIdx j))
      | none => .ok (false, .cc i f coords)

/-- Recursion into an optional slot, as in
`elif slot is not None: if slot.replace(one, another): return True`:
returns the updated slot when the recursive replace succeeded. -/
def replaceInto (one : Elem) (another : Option Elem) : Option Elem → PyResult (Option Elem)
  | none => .ok none
  | some s =>
      match replaceE one another s with
      | .error msg => .error msg
      | .ok (b, s') => .ok (if b then some s' else none)

/-- One ordered-list loop of `Phrase.replace`: for each child in order,
first the direct equality test `o == one`, else the recursive
`o.replace(one, another)`; stops at the first hit. -/
def scanList (one : Elem) (another : Option Elem) : List Elem → Nat → PyResult (Option ScanHit)
  | [], _ => .ok none
  | o :: rest, j =>
      if beqE o one then .ok (some (.direct j))
      else
        match replaceE one another o with
        | .error msg => .error msg
        | .ok (true, o') => .ok (some (.viaChild j o'))
        | .ok (false, _) => scanList one another rest (j + 1)

end

/-- Python `String(s)`: a fresh `String` leaf with `id = 0` and an empty
feature map. -/
def strE (s : String) : Elem := .str 0 [] s

/-- C2: "For every Element tree T, and likewise for every macro-structure
container (Document/Section/Paragraph/Message), constituents(T) yields
every leaf element (String, Word, PlaceHolder) of T exactly once and yields
only leaves, never an intermediate Phrase or Clause node."  Refuted at a
concrete input: a Document whose title is an NP yields that NP node itself
(not a leaf) among its constituents, and a Clause carrying a head leaf
never yields that leaf (its `constituents` skips the head slot). -/
theorem C2_counterexample :
    (docConstituents
      ⟨Elem.np 0 [] none none [] [] (some (strE "office")) [] [], []⟩).all isLeaf = false ∧
    constituents (Elem.clause 0 [] none none none [] [] (some (strE "h")) [] []) = [] :=
  ⟨rfl, rfl⟩

/-- C2 (amended): for every Element tree, `constituents` yields only leaves
and exactly one entry per leaf in its traversed child slots (a Clause head
is not traversed), and the same holds for Paragraph and Message containers;
Document and Section, however, yield their title element itself — not the
title's constituents — followed by the flattened bodies, so a non-leaf
title appears among the constituents as is. -/
theorem C2_amended_thm :
    (∀ e : Elem, (constituents e).all isLeaf = true ∧ (constituents e).length = numLeaves e)
    ∧ (∀ m : Msg, (msgConstituents m).all isLeaf = true ∧
        (msgConstituents m).length = msgNumLeaves m)
    ∧ (∀ ms : List Msg, (parConstituents ms).all isLeaf = true ∧
        (parConstituents ms).length = parNumLeaves ms)
    ∧ (∀ d : Doc, docConstituents d = d.title :: secListConstituents d.sections)
    ∧ (∀ s : Sec, secConstituents s = s.title :: parListConstituents s.paragraphs) :=
  ⟨fun e => ⟨constituents_all_leaf e, constituents_length e⟩,
   fun m => ⟨msgConstituents_all_leaf m, msgConstituents_length m⟩,
   fun ms => ⟨parConstituents_all_leaf ms, parConstituents_length ms⟩,
   fun _ => rfl, fun _ => rfl⟩

/-- C1: evaluation of `replace` at a failing input.  In the tree
`VP(front_modifier = [String "f"], post_modifier = [String "x"])` the
target `String "x"` occurs (it is a constituent), and
`replace(String "x", String "y")` returns `True` — but the post-modifier
loop of `Phrase.replace` assigns the replacement into `front_modifier`,
so afterwards the constituents are `[y, x]`: the target is still present
at its old position and the replacement overwrote the unrelated
front-modifier, contradicting the claimed contract. -/
theorem C1_postmodifier_bug_eval :
    replaceE (strE "x") (some (strE "y"))
        (.phr .vp 0 [] none [strE "f"] [] none [] [strE "x"]) =
      .ok (true, .phr .vp 0 [] none [strE "y"] [] none [] [strE "x"]) ∧
    constituents (.phr .vp 0 [] none [strE "y"] [] none [] [strE "x"]) =
      [strE "y", strE "x"] :=
  ⟨rfl, rfl⟩

/-- C6: evaluation of `replace` with the absent (None) replacement at a
failing input.  Deleting a matched complement of a VP raises `NameError`
(the deletion branches of `Phrase.replace` reference the undefined name
`sent`), instead of deleting the element and returning success as claimed;
only the CC coordinate path performs the deletion. -/
theorem C6_delete_eval :
    replaceE (strE "x") none (.phr .vp 0 [] none [] [] none [strE "x"] []) =
      .error "NameError" ∧
    replaceE (strE "x") none (.cc 0 [("conj", "and")] [strE "x", strE "b"]) =
      .ok (true, .cc 0 [("conj", "and")] [strE "b"]) :=
  ⟨rfl, rfl⟩

/-- Clause input on which the scan order of `replace` is observable: the
target occurs both as the whole subject and as the first front-modifier. -/
def clauseC4 : Elem :=
  .clause 0 [] none (some (strE "x")) none [strE "x"] [] none [] []

/-- C4: "replace(target, replacement) examines the node's children in
exactly the same per-kind order as constituents() — for a Clause:
front-modifiers, subject subtree, pre-modifiers, verb-phrase subtree,
complements, post-modifiers ..."  Refuted at a concrete input: in a Clause
whose subject and first front-modifier both equal the target, `replace`
substitutes the subject and leaves the front-modifier untouched, while the
claimed constituents order (front-modifiers first) would substitute the
front-modifier and leave the subject untouched. -/
theorem C4_counterexample :
    replaceE (strE "x") (some (strE "y")) clauseC4 =
      .ok (true, .clause 0 [] none (some (strE "y")) none [strE "x"] [] none [] []) ∧
    (Except.ok (true, Elem.clause 0 [] none (some (strE "y")) none [strE "x"] [] none [] []) :
        PyResult (Bool × Elem)) ≠
      .ok (true, .clause 0 [] none (some (strE "x")) none [strE "y"] [] none [] []) := by
  refine ⟨rfl, ?_⟩
  intro h
  simp [strE] at h

/-- C4 (amended): `replace` examines a Clause's children in the order
subject, verb phrase, then the inherited Phrase order (front-modifiers,
pre-modifiers, head, complements, post-modifiers) — the subject and verb
phrase are tried before the front-modifiers, unlike the `constituents`
order; at each position a child equal to the target is replaced outright,
stopping at the first success.  Witnessed by three order facts: a subject
equal to the target is always replaced first regardless of the other
slots; with no subject, a verb phrase equal to the target is replaced
next; and for a generic Phrase the front-modifier list is scanned first,
matching the `constituents` order. -/
theorem C4_amended_thm :
    (∀ (i : Int) (f : Feats) (d : Option String) (vb : Option Elem) (fm pm : List Elem)
        (hd : Option Elem) (cp ps : List Elem) (t y : Elem),
        replaceE t (some y) (.clause i f d (some t) vb fm pm hd cp ps) =
          .ok (true, .clause i f d (some y) vb fm pm hd cp ps))
    ∧ (∀ (i : Int) (f : Feats) (d : Option String) (fm pm : List Elem)
        (hd : Option Elem) (cp ps : List Elem) (t y : Elem),
        replaceE t (some y) (.clause i f d none (some t) fm pm hd cp ps) =
          .ok (true, .clause i f d none (some y) fm pm hd cp ps))
    ∧ (∀ (k : PKind) (i : Int) (f : Feats) (d : Option String) (fm' pm : List Elem)
        (hd : Option Elem) (cp ps : List Elem) (t y : Elem),
        replaceE t (some y) (.phr k i f d (t :: fm') pm hd cp ps) =
          .ok (true, .phr k i f d (y :: fm') pm hd cp ps)) := by
  refine ⟨?_, ?_, ?_⟩
  · intro i f d vb fm pm hd cp ps t y
    simp [replaceE, beqO, beqE_refl t]
  · intro i f d fm pm hd cp ps t y
    simp [replaceE, replaceInto, beqO, beqE_refl t]
  · intro k i f d fm' pm hd cp ps t y
    simp [replaceE, scanList, applyHit, beqE_refl t]

/-- Lookup in the feature map (`feat in self._features` plus the read). -/
def lookupF (fm : Feats) (k : String) : Option String :=
  match fm with
  | [] => none
  | (k', v) :: rest => if k' == k then some v else lookupF rest k

/-- Removal of a key from the feature map (`del self._features[feat]`). -/
def eraseF (fm : Feats) (k : String) : Feats :=
  match fm with
  | [] => []
  | (k', v) :: rest => if k' == k then rest else (k', v) :: eraseF rest k

/-- Python comparison `None == s` for a string `s`: always `False`. -/
def pyNoneEqStr (_ : String) : Bool := false

/-- `Element.del_feature(feat, val=None)`, translated branch by branch:

```
if feat in self._features:
    if val is not None: del self._features[feat]
    elif val == self._features[feat]: del self._features[feat]
```

When the key is present and an expected value is supplied (`val` is not
`None`), the key is deleted without comparing the stored value; when no
expected value is supplied, the `elif` compares `None` with the stored
string, which is `False`, so nothing is deleted. -/
def delFeature (fm : Feats) (feat : String) (val : Option String) : Feats :=
  match lookupF fm feat with
  | none => fm
  | some stored =>
      match val with
      | some _ => eraseF fm feat
      | none => if pyNoneEqStr stored then eraseF fm feat else fm

/-- C5: evaluation of `del_feature` at failing inputs.  On a feature map
holding `NEGATION = "TRUE"`: calling `del_feature("NEGATION")` with no
expected value leaves the map unchanged (the claim says the key is
removed), while calling `del_feature("NEGATION", "FALSE")` with a
non-matching expected value removes the key (the claim says the map is
unchanged).  The two branches of the method are inverted relative to its
own docstring. -/
theorem C5_del_feature_eval :
    delFeature [("NEGATION", "TRUE")] "NEGATION" none = [("NEGATION", "TRUE")] ∧
    delFeature [("NEGATION", "TRUE")] "NEGATION" (some "FALSE") = [] :=
  ⟨rfl, rfl⟩

/-- `VP.get_object`: iterates `self.complement` testing
`'discourseFunction' in c.features` — but no element class defines an
attribute `features` (the map is stored as `_features`), so the first loop
iteration raises `AttributeError`; with no complements the loop body never
runs and `None` is returned. -/
def getObject (complement : List Elem) : PyResult (Option Elem) :=
  match complement with
  | [] => .ok none
  | _ :: _ => .error "AttributeError"

/-- `VP.remove_object`: same loop over `self.complement` reading
`c.features`, so any complement raises `AttributeError`; an empty
complement list is rebuilt empty. -/
def removeObject (complement : List Elem) : PyResult (List Elem) :=
  match complement with
  | [] => .ok []
  | _ :: _ => .error "AttributeError"

/-- `VP.set_object(obj)`: calls `remove_object` first (raising on any
existing complement), then for a non-None `obj` executes
`obj.features['discourseFunction'] = 'OBJECT'` — again the undefined
attribute `features`, raising `AttributeError` before the insert. -/
def setObject (complement : List Elem) (obj : Option Elem) : PyResult (List Elem) :=
  match removeObject complement with
  | .error msg => .error msg
  | .ok compls =>
      match obj with
      | none => .ok compls
      | some _ => .error "AttributeError"

/-- C8: evaluation of the `VP` object accessors at failing inputs.
`get_object` on a VP with one complement raises `AttributeError` instead
of scanning the OBJECT discourse function, and `set_object(String "piano")`
on a VP with no complements raises `AttributeError` instead of tagging and
inserting the object: the methods read the attribute `features`, which no
element defines (the feature map attribute is `_features`). -/
theorem C8_features_attr_eval :
    getObject [strE "piano"] = .error "AttributeError" ∧
    setObject [] (some (strE "piano")) = .error "AttributeError" ∧
    getObject [] = .ok none :=
  ⟨rfl, rfl, rfl⟩

/-- Control-flow outcome of one call to `Element.replace_arguments`. -/
inductive ReplArgsOutcome where
  | valueErrorTooMany
  | positionalApplied
  | kwargsApplied
deriving DecidableEq

/-- Dispatch logic of `Element.replace_arguments(*args, **kwargs)`,
translated from its branch structure (which inspects only `len(args)`):

```
if len(args) > 0 and len(args) > 1:
    raise ValueError('too many parameters')
elif len(args) > 0:
    for k, v in args[0]: self.replace_argument(k, v)
else:
    for k, v in kwargs.items(): self.replace_argument(k, v)
```

With at least one positional argument the positional branch runs and the
keyword arguments are never consulted; no branch examines whether both
forms were supplied, and no `InvalidArgumentsError` exists anywhere in the
module. -/
def replaceArgumentsDispatch (numArgs _numKwargs : Nat) : ReplArgsOutcome :=
  if numArgs > 0 ∧ numArgs > 1 then .valueErrorTooMany
  else if numArgs > 0 then .positionalApplied
  else .kwargsApplied

/-- C7: evaluation of the `replace_arguments` dispatch at the failing
input.  A mixed call (one positional mapping together with one keyword
replacement) takes the positional branch and silently ignores the keyword
arguments — it does not fail with `InvalidArgumentsError` (no such error
exists in the module); only two or more positional arguments raise, and
then a plain `ValueError`. -/
theorem C7_mixed_call_eval :
    replaceArgumentsDispatch 1 1 = .positionalApplied ∧
    replaceArgumentsDispatch 2 0 = .valueErrorTooMany ∧
    replaceArgumentsDispatch 0 2 = .kwargsApplied :=
  ⟨rfl, rfl, rfl⟩

/-- An argument to the Phrase/CC add-operations: Python accepts raw
strings alongside elements. -/
abbrev StrOrElem := Sum String Elem

/-- `Element._strings_to_elements`: coerce raw strings to `String`
elements, leave elements unchanged. -/
def stringsToElements : List StrOrElem → List Elem
  | [] => []
  | .inl s :: rest => strE s :: stringsToElements rest
  | .inr e :: rest => e :: stringsToElements rest

/-- Python membership test `p in lst` on a list of elements (`__eq__`
against each member in order). -/
def containsE (lst : List Elem) (p : Elem) : Bool :=
  match lst with
  | [] => false
  | q :: rest => beqE p q || containsE rest p

/-- `Element._add_to_list(lst, *mods)`: append each coerced modifier
unless an equal element is already in the list (`if p not in lst`). -/
def addToList (lst : List Elem) (mods : List StrOrElem) : List Elem :=
  (stringsToElements mods).foldl (fun acc p => if containsE acc p then acc else acc ++ [p]) lst

/-- `CC.add_coordinate(*elts)`: append each coerced element
unconditionally (the membership check present in `_add_to_list` is
commented out in this method). -/
def addCoordinate (coords : List Elem) (elts : List StrOrElem) : List Elem :=
  coords ++ stringsToElements elts

/-- C10: "add_coordinate(e) appends e at the end of the coordinates
sequence unconditionally, even when an element equal to e is already a
coordinate — unlike the Phrase modifier/complement add-operations, which
skip an element already present in the list."  Proved: `add_coordinate`
always appends, while `_add_to_list` (backing `add_front_modifier`,
`add_pre_modifier`, `add_complement`, `add_post_modifier`) leaves the list
unchanged when an equal element is present and appends otherwise. -/
theorem C10_add_coordinate_vs_add_to_list :
    (∀ (coords : List Elem) (e : Elem), addCoordinate coords [.inr e] = coords ++ [e])
    ∧ (∀ (lst : List Elem) (e : Elem), containsE lst e = true →
        addToList lst [.inr e] = lst)
    ∧ (∀ (lst : List Elem) (e : Elem), containsE lst e = false →
        addToList lst [.inr e] = lst ++ [e]) := by
  refine ⟨fun coords e => rfl, ?_, ?_⟩
  · intro lst e h
    simp [addToList, stringsToElements, h]
  · intro lst e h
    simp [addToList, stringsToElements, h]

/-- C10 witness: the duplicate coordinate `String "x"` is appended anyway
by `add_coordinate`, while `_add_to_list` skips it. -/
theorem C10_witness :
    addCoordinate [strE "x"] [.inr (strE "x")] = [strE "x", strE "x"] ∧
    containsE [strE "x"] (strE "x") = true ∧
    addToList [strE "x"] [.inr (strE "x")] = [strE "x"] :=
  ⟨C10_add_coordinate_vs_add_to_list.1 [strE "x"] (strE "x"), by decide,
   C10_add_coordinate_vs_add_to_list.2.1 [strE "x"] (strE "x") (by decide)⟩

/-- Token emitted by the visitor when the node carries the feature
`NEGATION = "TRUE"` (`self.text += ' not'`). -/
def negTok (f : Feats) : String :=
  if lookupF f "NEGATION" == some "TRUE" then " not" else ""

/-- Token emitted by `IVisitor.visit_phrase` for the `COMPLEMENTISER`
feature (`self.text += ' ' + node.get_feature('COMPLEMENTISER')`). -/
def complTok (f : Feats) : String :=
  match lookupF f "COMPLEMENTISER" with
  | some v => " " ++ v
  | none => ""

/-- Value of the `COMPLEMENTISER` entry in `Phrase.__str__` (the empty
string when the feature is absent). -/
def complStrDunder (f : Feats) : String :=
  match lookupF f "COMPLEMENTISER" with
  | some v => v
  | none => ""

/-- Python `' '.join(parts)`. -/
def joinSpace (parts : List String) : String := String.intercalate " " parts

/-- Python `' '.join(filter(lambda x: x != '', parts))`, the final join of
`Phrase.__str__`. -/
def joinNonEmpty (parts : List String) : String :=
  String.intercalate " " (parts.filter (fun x => x ≠ ""))

mutual

/-- Text appended to a `StrVisitor` by `node.accept(visitor)`, or the
exception the visit raises.  Every visitor callback only appends to
`self.text` (the one truncation, in `visit_cc`, is behind the crashing
`node.conj` access), so the contribution of a node is a single string:

* `visit_string`, `visit_word`, `visit_placeholder` append a space and the
  node's `to_str()`;
* `visit_vp` / `visit_pp` run `visit_phrase`: the `NEGATION` token, then
  front-modifiers, pre-modifiers, head, the `COMPLEMENTISER` token,
  complements, post-modifiers;
* `visit_clause` emits the `NEGATION` token, then only the subject and
  verb-phrase subtrees;
* `visit_np` visits the specifier first, then runs `visit_phrase`;
* `visit_cc` with more than two coordinates visits the first coordinate
  and then evaluates `node.conj == 'and'` — `CC` instances define no
  attribute `conj` (the conjunction lives in the feature map), so an
  `AttributeError` is raised; with exactly two coordinates it visits the
  first, appends a space and `node.get_feature('conj')` (a `KeyError` when
  the feature is missing), then the second; one coordinate is visited
  alone; zero coordinates append nothing. -/
def visitAppend : Elem → PyResult String
  | .str _ _ v => .ok (" " ++ v)
  | .word _ _ w _ => .ok (" " ++ w.getD "")
  | .ph pid _ value =>
      match value with
      | none => .ok (" " ++ pid)
      | some v =>
          match elemPyStr v with
          | .error msg => .error msg
          | .ok s => .ok (" " ++ s)
  | .phr _ _ f _ fm pm hd cp ps =>
      match visitL fm with
      | .error msg => .error msg
      | .ok a =>
      match visitL pm with
      | .error msg => .error msg
      | .ok b =>
      match visitO hd with
      | .error msg => .error msg
      | .ok c =>
      match visitL cp with
      | .error msg => .error msg
      | .ok d2 =>
      match visitL ps with
      | .error msg => .error msg
      | .ok e2 => .ok (negTok f ++ a ++ b ++ c ++ complTok f ++ d2 ++ e2)
  | .clause _ f _ subj vb _ _ _ _ _ =>
      match visitO subj with
      | .error msg => .error msg
      | .ok s1 =>
      match visitO vb with
      | .error msg => .error msg
      | .ok v1 => .ok (negTok f ++ s1 ++ v1)
  | .np _ f _ spec fm pm hd cp ps =>
      match visitO spec with
      | .error msg => .error msg
      | .ok s0 =>
      match visitL fm with
      | .error msg => .error msg
      | .ok a =>
      match visitL pm with
      | .error msg => .error msg
      | .ok b =>
      match visitO hd with
      | .error msg => .error msg
      | .ok c =>
      match visitL cp with
      | .error msg => .error msg
      | .ok d2 =>
      match visitL ps with
      | .error msg => .error msg
      | .ok e2 => .ok (s0 ++ negTok f ++ a ++ b ++ c ++ complTok f ++ d2 ++ e2)
  | .cc _ f coords =>
      match coords with
      | c0 :: _ :: _ :: _ =>
          match visitAppend c0 with
          | .error msg => .error msg
          | .ok _ => .error "AttributeError"
      | [c0, c1] =>
          match visitAppend c0 with
          | .error msg => .error msg
          | .ok a =>
              match lookupF f "conj" with
              | none => .error "KeyError"
              | some conj =>
                  match visitAppend c1 with
                  | .error msg => .error msg
                  | .ok b => .ok (a ++ " " ++ conj ++ b)
      | [c0] => visitAppend c0
      | [] => .ok ""

/-- Visit of each element of a child list in order, contributions
concatenated (a raised exception propagates at once). -/
def visitL : List Elem → PyResult String
  | [] => .ok ""
  | e :: es =>
      match visitAppend e with
      | .error msg => .error msg
      | .ok s =>
          match visitL es with
          | .error msg => .error msg
          | .ok r => .ok (s ++ r)

/-- Visit of an optional child (`if node.slot: node.slot.accept(self)`). -/
def visitO : Option Elem → PyResult String
  | none => .ok ""
  | some e => visitAppend e

/-- Python `str(element)`, the per-class `__str__` methods (used by
`PlaceHolder.to_str` on its bound value):

* `String.__str__` returns `val`; `Word.__str__` returns `word` or the
  empty string; `PlaceHolder.__str__` is its `to_str`;
* `Phrase.__str__` space-joins the non-empty entries among the joined
  front-modifiers, joined pre-modifiers, head text, `COMPLEMENTISER`
  value, joined complements, joined post-modifiers;
* `Clause.__str__` space-joins the texts of the non-None subject and verb
  phrase; `NP.__str__` prepends the specifier text;
* `CC.__str__` reads `self.conj` inside its loop, raising
  `AttributeError` for any non-empty coordinate list. -/
def elemPyStr : Elem → PyResult String
  | .str _ _ v => .ok v
  | .word _ _ w _ => .ok (w.getD "")
  | .ph pid _ value =>
      match value with
      | none => .ok pid
      | some v => elemPyStr v
  | .phr _ _ f _ fm pm hd cp ps =>
      match elemPyStrL fm with
      | .error msg => .error msg
      | .ok fmS =>
      match elemPyStrL pm with
      | .error msg => .error msg
      | .ok pmS =>
      match elemPyStrOD hd with
      | .error msg => .error msg
      | .ok hS =>
      match elemPyStrL cp with
      | .error msg => .error msg
      | .ok cpS =>
      match elemPyStrL ps with
      | .error msg => .error msg
      | .ok psS =>
          .ok (joinNonEmpty [joinSpace fmS, joinSpace pmS, hS, complStrDunder f,
            joinSpace cpS, joinSpace psS])
  | .clause _ _ _ subj vb _ _ _ _ _ =>
      match subj with
      | none =>
          match vb with
          | none => .ok ""
          | some v => elemPyStr v
      | some s =>
          match vb with
          | none => elemPyStr s
          | some v =>
              match elemPyStr s with
              | .error msg => .error msg
              | .ok a =>
                  match elemPyStr v with
                  | .error msg => .error msg
                  | .ok b => .ok (a ++ " " ++ b)
  | .np _ f _ spec fm pm hd cp ps =>
      match elemPyStrL fm with
      | .error msg => .error msg
      | .ok fmS =>
      match elemPyStrL pm with
      | .error msg => .error msg
      | .ok pmS =>
      match elemPyStrOD hd with
      | .error msg => .error msg
      | .ok hS =>
      match elemPyStrL cp with
      | .error msg => .error msg
      | .ok cpS =>
      match elemPyStrL ps with
      | .error msg => .error msg
      | .ok psS =>
          match spec with
          | none =>
              .ok (joinNonEmpty [joinSpace fmS, joinSpace pmS, hS, complStrDunder f,
                joinSpace cpS, joinSpace psS])
          | some sp =>
              match elemPyStr sp with
              | .error msg => .error msg
              | .ok spS =>
                  .ok (spS ++ " " ++ joinNonEmpty [joinSpace fmS, joinSpace pmS, hS,
                    complStrDunder f, joinSpace cpS, joinSpace psS])
  | .cc _ _ coords =>
      match coords with
      | [] => .ok ""
      | _ :: _ => .error "AttributeError"

/-- Texts of the elements of a child list (for the joins of
`Phrase.__str__`). -/
def elemPyStrL : List Elem → PyResult (List String)
  | [] => .ok []
  | e :: es =>
      match elemPyStr e with
      | .error msg => .error msg
      | .ok s =>
          match elemPyStrL es with
          | .error msg => .error msg
          | .ok r => .ok (s :: r)

/-- Text of an optional head (`str(self.head) if self.head is not None
else ''`). -/
def elemPyStrOD : Option Elem → PyResult String
  | none => .ok ""
  | some e => elemPyStr e

end

/-- Rendering of an element through `StrVisitor`
(`Element.__str__` for the visitor-dispatched classes): run the visitor
and call `to_str`, which strips surrounding whitespace. -/
def strRender (e : Elem) : PyResult String :=
  match visitAppend e with
  | .error msg => .error msg
  | .ok s => .ok s.trim

/-- CC node with three coordinates rendering as `A`, `B`, `C` and the
default conjunction. -/
def cc3and : Elem := .cc 0 [("conj", "and")] [strE "A", strE "B", strE "C"]

/-- C3: "the string renderer produces ... \"A, B, and C\" for three
coordinates with the default conjunction ..."  Refuted at a concrete
input: rendering a CC of three `String` coordinates raises
`AttributeError` (`StrVisitor.visit_cc` reads `node.conj`, an attribute no
`CC` instance defines — the conjunction is stored only in the feature
map), so the output `"A, B, and C"` is never produced. -/
theorem C3_counterexample :
    strRender cc3and = .error "AttributeError" ∧
    strRender cc3and ≠ .ok "A, B, and C" := by
  refine ⟨rfl, fun h => ?_⟩
  rw [show strRender cc3and = Except.error "AttributeError" from rfl] at h
  exact Except.noConfusion h

/-- C3 (amended): for a CC whose coordinates individually render as `A`,
`B`: zero coordinates render as the empty string; one coordinate renders
alone; two coordinates render as `A <conj> B` with the conjunction read
from the `conj` feature (so `A and B` by default and `A or B` with
`conj = "or"`); and three or more coordinates raise `AttributeError`
(`visit_cc` reads the undefined attribute `node.conj` right after visiting
the first coordinate), so no three-coordinate output is produced at all. -/
theorem C3_amended_thm :
    (∀ (i : Int) (f : Feats), visitAppend (.cc i f []) = .ok "")
    ∧ (∀ (i : Int) (f : Feats) (c : Elem), visitAppend (.cc i f [c]) = visitAppend c)
    ∧ (∀ (i : Int) (f : Feats) (conj : String) (c0 c1 : Elem) (a b : String),
        lookupF f "conj" = some conj → visitAppend c0 = .ok a → visitAppend c1 = .ok b →
        visitAppend (.cc i f [c0, c1]) = .ok (a ++ " " ++ conj ++ b))
    ∧ (∀ (i : Int) (f : Feats) (c0 c1 c2 : Elem) (rest : List Elem) (s0 : String),
        visitAppend c0 = .ok s0 →
        strRender (.cc i f (c0 :: c1 :: c2 :: rest)) = .error "AttributeError") := by
  refine ⟨fun i f => rfl, fun i f c => rfl, ?_, ?_⟩
  · intro i f conj c0 c1 a b hconj h0 h1
    simp [visitAppend, hconj, h0, h1]
  · intro i f c0 c1 c2 rest s0 h0
    simp [strRender, visitAppend, h0]

/-- C3 witness: concrete two-coordinate renderings with `and` and `or`,
and the three-coordinate failure, obtained from the amended theorem. -/
theorem C3_amended_witness :
    lookupF [("conj", "and")] "conj" = some "and" ∧
    visitAppend (strE "A") = .ok " A" ∧
    visitAppend (.cc 0 [("conj", "and")] [strE "A", strE "B"]) = .ok " A and B" ∧
    visitAppend (.cc 0 [("conj", "or")] [strE "A", strE "B"]) = .ok " A or B" ∧
    strRender (.cc 0 [("conj", "and")] [strE "A", strE "B", strE "C"]) =
      .error "AttributeError" :=
  ⟨rfl, rfl,
   C3_amended_thm.2.2.1 0 [("conj", "and")] "and" (strE "A") (strE "B") " A" " B" rfl rfl rfl,
   C3_amended_thm.2.2.1 0 [("conj", "or")] "or" (strE "A") (strE "B") " A" " B" rfl rfl rfl,
   C3_amended_thm.2.2.2 0 [("conj", "and")] (strE "A") (strE "B") (strE "C") [] " A" rfl⟩

/-- JSON values, as produced by the Python `json` module for the
`ElemntCoder` encoding: null, numbers, strings, arrays and objects (an
object is kept as its key/value list in insertion order, which is the
order the class `__init__` methods create the instance attributes). -/
inductive JVal where
  | jnull
  | jint (n : Int)
  | jstr (s : String)
  | jarr (xs : List JVal)
  | jobj (fields : List (String × JVal))

/-- A single-quote character (written through its code point so the tag
strings below spell exactly what Python `str(type(obj))` prints). -/
def apos : String := "\x27"

/-- Python `str(type(obj))` for a class of `nlg.structures`, the value the
encoder stores under `__class__` and the decoder compares against. -/
def pyClassTag (name : String) : String :=
  "<class " ++ apos ++ "nlg.structures." ++ name ++ apos ++ ">"

/-- Encoding of the feature dictionary: a JSON object mapping each key to
its string value. -/
def encodeFeats (f : Feats) : JVal := .jobj (f.map fun p => (p.1, .jstr p.2))

/-- Encoding of an optional string attribute (`None` becomes null). -/
def encodeOptStr : Option String → JVal
  | none => .jnull
  | some s => .jstr s

/-- Class name of a generic Phrase kind (the `__class__` tag). -/
def pkClassName : PKind → String
  | .vp => "VP"
  | .pp => "PP"
  | .advp => "AdvP"
  | .adjp => "AdjP"

/-- `_visitor_name` of a generic Phrase kind (`AdvP` and `AdjP` also
dispatch through `visit_pp`). -/
def pkVName : PKind → String
  | .vp => "visit_vp"
  | _ => "visit_pp"

/-- `type` attribute of a generic Phrase kind. -/
def pkTypeTag : PKind → String
  | .vp => "VERB_PHRASE"
  | .pp => "PREPOSITIONAL_PHRASE"
  | .advp => "ADVERB_PHRASE"
  | .adjp => "ADJECTIVE_PHRASE"

mutual

/-- `ElemntCoder.to_json`, recursively applied (as `json.dumps` does
through its `default` hook): the field list of the two-entry object
`\x7b'__class__': str(type(o)), '__value__': o.__dict__\x7d`, with the
`__dict__` entries in the order the constructors create them. -/
def encodeTopL : Elem → List (String × JVal)
  | .str i f v =>
      [("__class__", .jstr (pyClassTag "String")),
       ("__value__", .jobj [("id", .jint i), ("_visitor_name", .jstr "visit_string"),
         ("_features", encodeFeats f), ("val", .jstr v)])]
  | .word i f w p =>
      [("__class__", .jstr (pyClassTag "Word")),
       ("__value__", .jobj [("id", .jint i), ("_visitor_name", .jstr "visit_word"),
         ("_features", encodeFeats f), ("word", encodeOptStr w), ("pos", encodeOptStr p)])]
  | .ph pid f v =>
      [("__class__", .jstr (pyClassTag "PlaceHolder")),
       ("__value__", .jobj [("id", .jstr pid), ("_visitor_name", .jstr "visit_placeholder"),
         ("_features", encodeFeats f), ("value", encodeOptE v)])]
  | .phr k i f d fm pm hd cp ps =>
      [("__class__", .jstr (pyClassTag (pkClassName k))),
       ("__value__", .jobj [("id", .jint i), ("_visitor_name", .jstr (pkVName k)),
         ("_features", encodeFeats f), ("type", .jstr (pkTypeTag k)),
         ("discourse_fn", encodeOptStr d),
         ("front_modifier", .jarr (encodeL fm)), ("pre_modifier", .jarr (encodeL pm)),
         ("head", encodeOptE hd), ("complement", .jarr (encodeL cp)),
         ("post_modifier", .jarr (encodeL ps))])]
  | .clause i f d subj vb fm pm hd cp ps =>
      [("__class__", .jstr (pyClassTag "Clause")),
       ("__value__", .jobj [("id", .jint i), ("_visitor_name", .jstr "visit_clause"),
         ("_features", encodeFeats f), ("type", .jstr "CLAUSE"),
         ("discourse_fn", encodeOptStr d),
         ("front_modifier", .jarr (encodeL fm)), ("pre_modifier", .jarr (encodeL pm)),
         ("head", encodeOptE hd), ("complement", .jarr (encodeL cp)),
         ("post_modifier", .jarr (encodeL ps)),
         ("subj", encodeOptE subj), ("vp", encodeOptE vb)])]
  | .np i f d spec fm pm hd cp ps =>
      [("__class__", .jstr (pyClassTag "NP")),
       ("__value__", .jobj [("id", .jint i), ("_visitor_name", .jstr "visit_np"),
         ("_features", encodeFeats f), ("type", .jstr "NOUN_PHRASE"),
         ("discourse_fn", encodeOptStr d),
         ("front_modifier", .jarr (encodeL fm)), ("pre_modifier", .jarr (encodeL pm)),
         ("head", encodeOptE hd), ("complement", .jarr (encodeL cp)),
         ("post_modifier", .jarr (encodeL ps)),
         ("spec", encodeOptE spec)])]
  | .cc i f cs =>
      [("__class__", .jstr (pyClassTag "CC")),
       ("__value__", .jobj [("id", .jint i), ("_visitor_name", .jstr "visit_cc"),
         ("_features", encodeFeats f), ("coords", .jarr (encodeL cs))])]

/-- Encoding of a list-valued attribute (a JSON array, elementwise). -/
def encodeL : List Elem → List JVal
  | [] => []
  | e :: es => .jobj (encodeTopL e) :: encodeL es

/-- Encoding of an optional element attribute (`None` becomes null). -/
def encodeOptE : Option Elem → JVal
  | none => .jnull
  | some e => .jobj (encodeTopL e)

end

/-- The whole encoding of one element (always a two-entry object). -/
def encodeElem (e : Elem) : JVal := .jobj (encodeTopL e)

/-- Decoding of an encoded feature dictionary back to the map. -/
def decodeFeatsL : List (String × JVal) → Option Feats
  | [] => some []
  | (k, .jstr v) :: rest =>
      match decodeFeatsL rest with
      | some f => some ((k, v) :: f)
      | none => none
  | _ => none

/-- Decoding of the `_features` value. -/
def decodeFeats : JVal → Option Feats
  | .jobj fs => decodeFeatsL fs
  | _ => none

/-- Decoding of an optional string attribute. -/
def decodeOptStr : JVal → Option (Option String)
  | .jnull => some none
  | .jstr s => some (some s)
  | _ => none

mutual

/-- `ElemntCoder.from_json` together with the `from_dict` class methods:
dispatch on the `__class__` tag (compared in the order of the `from_json`
chain — `String`, `Word`, `PlaceHolder`, `Clause`, `NP`, `VP`, `PP`,
`AdjP`, `AdvP`, `CC`; the abstract `Element` and `Phrase` branches of the
chain are omitted here since no encoded tree of the concrete kinds
produces their tags), then restore the `__value__` field map wholesale
(`o.__dict__ = dct`, with no constructor validation). -/
def decodeTop : List (String × JVal) → Option Elem
  | [(c, .jstr tag), (v, .jobj fields)] =>
      if c == "__class__" && v == "__value__" then
        if tag == pyClassTag "String" then
          match fields with
          | [(k1, .jint i), (k2, .jstr vn), (k3, fJ), (k4, .jstr val)] =>
              if k1 == "id" && k2 == "_visitor_name" && k3 == "_features" && k4 == "val" &&
                  vn == "visit_string" then
                match decodeFeats fJ with
                | some f => some (.str i f val)
                | none => none
              else none
          | _ => none
        else if tag == pyClassTag "Word" then
          match fields with
          | [(k1, .jint i), (k2, .jstr vn), (k3, fJ), (k4, wJ), (k5, pJ)] =>
              if k1 == "id" && k2 == "_visitor_name" && k3 == "_features" && k4 == "word" &&
                  k5 == "pos" && vn == "visit_word" then
                match decodeFeats fJ, decodeOptStr wJ, decodeOptStr pJ with
                | some f, some w, some p => some (.word i f w p)
                | _, _, _ => none
              else none
          | _ => none
        else if tag == pyClassTag "PlaceHolder" then
          match fields with
          | [(k1, .jstr pid), (k2, .jstr vn), (k3, fJ), (k4, vJ)] =>
              if k1 == "id" && k2 == "_visitor_name" && k3 == "_features" && k4 == "value" &&
                  vn == "visit_placeholder" then
                match decodeFeats fJ, decodeOptE vJ with
                | some f, some val => some (.ph pid f val)
                | _, _ => none
              else none
          | _ => none
        else if tag == pyClassTag "Clause" then
          match fields with
          | [(k1, .jint i), (k2, .jstr vn), (k3, fJ), (k4, .jstr ty), (k5, dJ),
             (k6, .jarr fmJ), (k7, .jarr pmJ), (k8, hJ), (k9, .jarr cpJ),
             (k10, .jarr psJ), (k11, sJ), (k12, vbJ)] =>
              if k1 == "id" && k2 == "_visitor_name" && k3 == "_features" && k4 == "type" &&
                  k5 == "discourse_fn" && k6 == "front_modifier" && k7 == "pre_modifier" &&
                  k8 == "head" && k9 == "complement" && k10 == "post_modifier" &&
                  k11 == "subj" && k12 == "vp" && vn == "visit_clause" && ty == "CLAUSE" then
                match decodeFeats fJ, decodeOptStr dJ, decodeL fmJ, decodeL pmJ,
                    decodeOptE hJ, decodeL cpJ, decodeL psJ, decodeOptE sJ, decodeOptE vbJ with
                | some f, some d, some fm, some pm, some hd, some cp, some ps,
                    some subj, some vb => some (.clause i f d subj vb fm pm hd cp ps)
                | _, _, _, _, _, _, _, _, _ => none
              else none
          | _ => none
        else if tag == pyClassTag "NP" then
          match fields with
          | [(k1, .jint i), (k2, .jstr vn), (k3, fJ), (k4, .jstr ty), (k5, dJ),
             (k6, .jarr fmJ), (k7, .jarr pmJ), (k8, hJ), (k9, .jarr cpJ),
             (k10, .jarr psJ), (k11, spJ)] =>
              if k1 == "id" && k2 == "_visitor_name" && k3 == "_features" && k4 == "type" &&
                  k5 == "discourse_fn" && k6 == "front_modifier" && k7 == "pre_modifier" &&
                  k8 == "head" && k9 == "complement" && k10 == "post_modifier" &&
                  k11 == "spec" && vn == "visit_np" && ty == "NOUN_PHRASE" then
                match decodeFeats fJ, decodeOptStr dJ, decodeL fmJ, decodeL pmJ,
                    decodeOptE hJ, decodeL cpJ, decodeL psJ, decodeOptE spJ with
                | some f, some d, some fm, some pm, some hd, some cp, some ps, some spec =>
                    some (.np i f d spec fm pm hd cp ps)
                | _, _, _, _, _, _, _, _ => none
              else none
          | _ => none
        else if tag == pyClassTag "VP" then
          decodePhr .vp fields
        else if tag == pyClassTag "PP" then
          decodePhr .pp fields
        else if tag == pyClassTag "AdjP" then
          decodePhr .adjp fields
        else if tag == pyClassTag "AdvP" then
          decodePhr .advp fields
        else if tag == pyClassTag "CC" then
          match fields with
          | [(k1, .jint i), (k2, .jstr vn), (k3, fJ), (k4, .jarr csJ)] =>
              if k1 == "id" && k2 == "_visitor_name" && k3 == "_features" && k4 == "coords" &&
                  vn == "visit_cc" then
                match decodeFeats fJ, decodeL csJ with
                | some f, some cs => some (.cc i f cs)
                | _, _ => none
              else none
          | _ => none
        else none
      else none
  | _ => none

/-- Field-map restoration of one of the four generic Phrase classes (the
`Phrase.from_dict` path taken by the `VP`/`PP`/`AdjP`/`AdvP` branches of
`from_json`): checks the dispatch name and `type` string of the kind and
rebuilds the slots. -/
def decodePhr (k : PKind) (fields : List (String × JVal)) : Option Elem :=
  match fields with
  | [(k1, .jint i), (k2, .jstr vn), (k3, fJ), (k4, .jstr ty), (k5, dJ),
     (k6, .jarr fmJ), (k7, .jarr pmJ), (k8, hJ), (k9, .jarr cpJ), (k10, .jarr psJ)] =>
      if k1 == "id" && k2 == "_visitor_name" && k3 == "_features" && k4 == "type" &&
          k5 == "discourse_fn" && k6 == "front_modifier" && k7 == "pre_modifier" &&
          k8 == "head" && k9 == "complement" && k10 == "post_modifier" &&
          vn == pkVName k && ty == pkTypeTag k then
        match decodeFeats fJ, decodeOptStr dJ, decodeL fmJ, decodeL pmJ,
            decodeOptE hJ, decodeL cpJ, decodeL psJ with
        | some f, some d, some fm, some pm, some hd, some cp, some ps =>
            some (.phr k i f d fm pm hd cp ps)
        | _, _, _, _, _, _, _ => none
      else none
  | _ => none

/-- Decoding of a JSON array of encoded elements. -/
def decodeL : List JVal → Option (List Elem)
  | [] => some []
  | x :: xs =>
      match (match x with | .jobj l => decodeTop l | _ => none) with
      | none => none
      | some e =>
          match decodeL xs with
          | none => none
          | some es => some (e :: es)

/-- Decoding of an optional element attribute (null decodes to `None`). -/
def decodeOptE : JVal → Option (Option Elem)
  | .jnull => some none
  | .jobj l =>
      match decodeTop l with
      | some e => some (some e)
      | none => none
  | _ => none

end

/-- The whole decoding of one JSON value to an element. -/
def decodeElem : JVal → Option Elem
  | .jobj l => decodeTop l
  | _ => none

theorem decodeFeatsL_enc : ∀ f : Feats,
    decodeFeatsL (f.map fun p => (p.1, JVal.jstr p.2)) = some f
  | [] => rfl
  | (k, v) :: rest => by simp [decodeFeatsL, decodeFeatsL_enc rest]

theorem decodeFeats_enc (f : Feats) : decodeFeats (encodeFeats f) = some f := by
  simp [decodeFeats, encodeFeats, decodeFeatsL_enc f]

theorem decodeOptStr_enc : ∀ w : Option String, decodeOptStr (encodeOptStr w) = some w
  | none => rfl
  | some _ => rfl

theorem decodeTop_str (i : Int) (fJ : JVal) (v : String) :
    decodeTop [("__class__", .jstr (pyClassTag "String")),
      ("__value__", .jobj [("id", .jint i), ("_visitor_name", .jstr "visit_string"),
        ("_features", fJ), ("val", .jstr v)])] =
    (match decodeFeats fJ with
     | some f => some (.str i f v)
     | none => none) := rfl

theorem decodeTop_word (i : Int) (fJ wJ pJ : JVal) :
    decodeTop [("__class__", .jstr (pyClassTag "Word")),
      ("__value__", .jobj [("id", .jint i), ("_visitor_name", .jstr "visit_word"),
        ("_features", fJ), ("word", wJ), ("pos", pJ)])] =
    (match decodeFeats fJ, decodeOptStr wJ, decodeOptStr pJ with
     | some f, some w, some p => some (.word i f w p)
     | _, _, _ => none) := rfl

theorem decodeTop_ph (pid : String) (fJ vJ : JVal) :
    decodeTop [("__class__", .jstr (pyClassTag "PlaceHolder")),
      ("__value__", .jobj [("id", .jstr pid), ("_visitor_name", .jstr "visit_placeholder"),
        ("_features", fJ), ("value", vJ)])] =
    (match decodeFeats fJ, decodeOptE vJ with
     | some f, some val => some (.ph pid f val)
     | _, _ => none) := rfl

theorem decodeTop_clause (i : Int) (fJ dJ : JVal) (fmJ pmJ : List JVal) (hJ : JVal)
    (cpJ psJ : List JVal) (sJ vbJ : JVal) :
    decodeTop [("__class__", .jstr (pyClassTag "Clause")),
      ("__value__", .jobj [("id", .jint i), ("_visitor_name", .jstr "visit_clause"),
        ("_features", fJ), ("type", .jstr "CLAUSE"), ("discourse_fn", dJ),
        ("front_modifier", .jarr fmJ), ("pre_modifier", .jarr pmJ), ("head", hJ),
        ("complement", .jarr cpJ), ("post_modifier", .jarr psJ),
        ("subj", sJ), ("vp", vbJ)])] =
    (match decodeFeats fJ, decodeOptStr dJ, decodeL fmJ, decodeL pmJ,
        decodeOptE hJ, decodeL cpJ, decodeL psJ, decodeOptE sJ, decodeOptE vbJ with
     | some f, some d, some fm, some pm, some hd, some cp, some ps,
         some subj, some vb => some (.clause i f d subj vb fm pm hd cp ps)
     | _, _, _, _, _, _, _, _, _ => none) := rfl

theorem decodeTop_np (i : Int) (fJ dJ : JVal) (fmJ pmJ : List JVal) (hJ : JVal)
    (cpJ psJ : List JVal) (spJ : JVal) :
    decodeTop [("__class__", .jstr (pyClassTag "NP")),
      ("__value__", .jobj [("id", .jint i), ("_visitor_name", .jstr "visit_np"),
        ("_features", fJ), ("type", .jstr "NOUN_PHRASE"), ("discourse_fn", dJ),
        ("front_modifier", .jarr fmJ), ("pre_modifier", .jarr pmJ), ("head", hJ),
        ("complement", .jarr cpJ), ("post_modifier", .jarr psJ), ("spec", spJ)])] =
    (match decodeFeats fJ, decodeOptStr dJ, decodeL fmJ, decodeL pmJ,
        decodeOptE hJ, decodeL cpJ, decodeL psJ, decodeOptE spJ with
     | some f, some d, some fm, some pm, some hd, some cp, some ps, some spec =>
         some (.np i f d spec fm pm hd cp ps)
     | _, _, _, _, _, _, _, _ => none) := rfl

theorem decodeTop_vp (i : Int) (fJ dJ : JVal) (fmJ pmJ : List JVal) (hJ : JVal)
    (cpJ psJ : List JVal) :
    decodeTop [("__class__", .jstr (pyClassTag "VP")),
      ("__value__", .jobj [("id", .jint i), ("_visitor_name", .jstr "visit_vp"),
        ("_features", fJ), ("type", .jstr "VERB_PHRASE"), ("discourse_fn", dJ),
        ("front_modifier", .jarr fmJ), ("pre_modifier", .jarr pmJ), ("head", hJ),
        ("complement", .jarr cpJ), ("post_modifier", .jarr psJ)])] =
    (match decodeFeats fJ, decodeOptStr dJ, decodeL fmJ, decodeL pmJ,
        decodeOptE hJ, decodeL cpJ, decodeL psJ with
     | some f, some d, some fm, some pm, some hd, some cp, some ps =>
         some (.phr .vp i f d fm pm hd cp ps)
     | _, _, _, _, _, _, _ => none) := rfl

theorem decodeTop_pp (i : Int) (fJ dJ : JVal) (fmJ pmJ : List JVal) (hJ : JVal)
    (cpJ psJ : List JVal) :
    decodeTop [("__class__", .jstr (pyClassTag "PP")),
      ("__value__", .jobj [("id", .jint i), ("_visitor_name", .jstr "visit_pp"),
        ("_features", fJ), ("type", .jstr "PREPOSITIONAL_PHRASE"), ("discourse_fn", dJ),
        ("front_modifier", .jarr fmJ), ("pre_modifier", .jarr pmJ), ("head", hJ),
        ("complement", .jarr cpJ), ("post_modifier", .jarr psJ)])] =
    (match decodeFeats fJ, decodeOptStr dJ, decodeL fmJ, decodeL pmJ,
        decodeOptE hJ, decodeL cpJ, decodeL psJ with
     | some f, some d, some fm, some pm, some hd, some cp, some ps =>
         some (.phr .pp i f d fm pm hd cp ps)
     | _, _, _, _, _, _, _ => none) := rfl

theorem decodeTop_adjp (i : Int) (fJ dJ : JVal) (fmJ pmJ : List JVal) (hJ : JVal)
    (cpJ psJ : List JVal) :
    decodeTop [("__class__", .jstr (pyClassTag "AdjP")),
      ("__value__", .jobj [("id", .jint i), ("_visitor_name", .jstr "visit_pp"),
        ("_features", fJ), ("type", .jstr "ADJECTIVE_PHRASE"), ("discourse_fn", dJ),
        ("front_modifier", .jarr fmJ), ("pre_modifier", .jarr pmJ), ("head", hJ),
        ("complement", .jarr cpJ), ("post_modifier", .jarr psJ)])] =
    (match decodeFeats fJ, decodeOptStr dJ, decodeL fmJ, decodeL pmJ,
        decodeOptE hJ, decodeL cpJ, decodeL psJ with
     | some f, some d, some fm, some pm, some hd, some cp, some ps =>
         some (.phr .adjp i f d fm pm hd cp ps)
     | _, _, _, _, _, _, _ => none) := rfl

theorem decodeTop_advp (i : Int) (fJ dJ : JVal) (fmJ pmJ : List JVal) (hJ : JVal)
    (cpJ psJ : List JVal) :
    decodeTop [("__class__", .jstr (pyClassTag "AdvP")),
      ("__value__", .jobj [("id", .jint i), ("_visitor_name", .jstr "visit_pp"),
        ("_features", fJ), ("type", .jstr "ADVERB_PHRASE"), ("discourse_fn", dJ),
        ("front_modifier", .jarr fmJ), ("pre_modifier", .jarr pmJ), ("head", hJ),
        ("complement", .jarr cpJ), ("post_modifier", .jarr psJ)])] =
    (match decodeFeats fJ, decodeOptStr dJ, decodeL fmJ, decodeL pmJ,
        decodeOptE hJ, decodeL cpJ, decodeL psJ with
     | some f, some d, some fm, some pm, some hd, some cp, some ps =>
         some (.phr .advp i f d fm pm hd cp ps)
     | _, _, _, _, _, _, _ => none) := rfl

theorem decodeTop_cc (i : Int) (fJ : JVal) (csJ : List JVal) :
    decodeTop [("__class__", .jstr (pyClassTag "CC")),
      ("__value__", .jobj [("id", .jint i), ("_visitor_name", .jstr "visit_cc"),
        ("_features", fJ), ("coords", .jarr csJ)])] =
    (match decodeFeats fJ, decodeL csJ with
     | some f, some cs => some (.cc i f cs)
     | _, _ => none) := rfl

set_option maxHeartbeats 2000000 in
mutual

theorem decodeTop_enc : ∀ e : Elem, decodeTop (encodeTopL e) = some e
  | .str i f v => by
      simp [encodeTopL, decodeTop_str, decodeFeats_enc]
  | .word i f w p => by
      simp [encodeTopL, decodeTop_word, decodeFeats_enc, decodeOptStr_enc]
  | .ph pid f v => by
      simp [encodeTopL, decodeTop_ph, decodeFeats_enc, decodeOptE_enc v]
  | .phr k i f d fm pm hd cp ps => by
      cases k <;>
        simp [encodeTopL, pkClassName, pkVName, pkTypeTag, decodeTop_vp, decodeTop_pp,
          decodeTop_adjp, decodeTop_advp, decodeFeats_enc, decodeOptStr_enc,
          decodeL_enc fm, decodeL_enc pm, decodeOptE_enc hd, decodeL_enc cp, decodeL_enc ps]
  | .clause i f d subj vb fm pm hd cp ps => by
      simp [encodeTopL, decodeTop_clause, decodeFeats_enc, decodeOptStr_enc,
        decodeL_enc fm, decodeL_enc pm, decodeOptE_enc hd, decodeL_enc cp, decodeL_enc ps,
        decodeOptE_enc subj, decodeOptE_enc vb]
  | .np i f d spec fm pm hd cp ps => by
      simp [encodeTopL, decodeTop_np, decodeFeats_enc, decodeOptStr_enc,
        decodeL_enc fm, decodeL_enc pm, decodeOptE_enc hd, decodeL_enc cp, decodeL_enc ps,
        decodeOptE_enc spec]
  | .cc i f cs => by
      simp [encodeTopL, decodeTop_cc, decodeFeats_enc, decodeL_enc cs]

theorem decodeL_enc : ∀ l : List Elem, decodeL (encodeL l) = some l
  | [] => rfl
  | e :: es => by simp [encodeL, decodeL, decodeTop_enc e, decodeL_enc es]

theorem decodeOptE_enc : ∀ o : Option Elem, decodeOptE (encodeOptE o) = some o
  | none => rfl
  | some e => by
      show (match decodeTop (encodeTopL e) with
            | some x => some (some x)
            | none => none) = some (some e)
      rw [decodeTop_enc e]

end

/-- C9: "For every Element tree built from the concrete kinds (String,
Word, PlaceHolder, Clause, NP, VP, PP, AdvP, AdjP, CC): encoding it with
the class-tagged JSON encoding and then decoding the result yields a tree
equal to the original under the data model's structural equality."
Proved: the `ElemntCoder` encoding followed by the `from_json`/`from_dict`
decoding reproduces every tree of the concrete kinds exactly. -/
theorem C9_json_roundtrip : ∀ e : Elem, decodeElem (encodeElem e) = some e :=
  fun e => by simp [decodeElem, encodeElem, decodeTop_enc e]

end Nlg
